import Mathlib

/-!
Verification of the telemetry flight-recorder plugin (`src/main.py`,
class `PytronkittelemetryPlugin`).

The Python source is shallowly embedded: each method becomes a Lean
function over an explicit plugin state; Python exceptions become
explicit error results; the process-wide objects touched by the code
(the exception-hook slot, the event queue) are fields of the state.
External effects (the host state mapping, system info, psutil, the
network transport) enter as explicit environment values describing the
outcome the external call would have had.
-/

namespace Telemetry

/-- Values stored in the Python dictionaries the plugin handles (a small
closed universe suffices for the claims: strings and rationals stand in
for Python strings and numbers). -/
inductive JValue where
  | s : String → JValue
  | n : ℚ → JValue
deriving DecidableEq, Repr

/-- A Python mapping is modelled as an association list. -/
abbrev StateMap := List (String × JValue)

/-! ### String primitives used by the source

`lowerStr` models `str.lower` (on the ASCII letters the filtered words
consist of), `stripStr` models `str.strip`, and `strContains hay needle`
models the Python expression that the needle occurs in the haystack
(`needle in hay`). -/

/-- Model of `str.lower` on a single character: uppercase ASCII letters
map to lowercase, everything else is unchanged. -/
def lowerChar (c : Char) : Char :=
  if 65 ≤ c.toNat ∧ c.toNat ≤ 90 then Char.ofNat (c.toNat + 32) else c

/-- Model of `str.lower`. -/
def lowerStr (s : String) : String :=
  ⟨s.data.map lowerChar⟩

/-- Whitespace characters removed by Python `str.strip()`. -/
def pyWs (c : Char) : Bool :=
  c = ' ' ∨ c = '\t' ∨ c = '\n' ∨ c = '\r' ∨ c = '\x0b' ∨ c = '\x0c'

/-- Drop leading and trailing whitespace from a character list. -/
def stripChars (l : List Char) : List Char :=
  ((l.dropWhile pyWs).reverse.dropWhile pyWs).reverse

/-- Model of `str.strip()`. -/
def stripStr (s : String) : String :=
  ⟨stripChars s.data⟩

/-- Does the second list occur at the head of the first? -/
def headMatches : List Char → List Char → Bool
  | _, [] => true
  | [], _ :: _ => false
  | a :: as, b :: bs => a = b && headMatches as bs

/-- Occurrence of `needle` anywhere in `hay` (Python `needle in hay`). -/
def substrIn (needle : List Char) : List Char → Bool
  | [] => headMatches [] needle
  | a :: as => headMatches (a :: as) needle || substrIn needle as

/-- Python `needle in hay` on strings. -/
def strContains (hay needle : String) : Bool :=
  substrIn needle.data hay.data

/-! ### Sanitization (src/main.py line 110)

`safe_state = {k: v for k, v in state_snapshot.items()
               if "password" not in k.lower() and "token" not in k.lower()}` -/

/-- Is the key kept by the sanitization filter? -/
def keyKept (k : String) : Bool :=
  !(strContains (lowerStr k) "password") && !(strContains (lowerStr k) "token")

/-- The dict comprehension of line 110. -/
def sanitize (st : StateMap) : StateMap :=
  st.filter (fun kv => keyKept kv.1)

/-! ### The bounded queue (src/main.py lines 14, 133-136)

`self.queue = Queue(maxsize=100)` together with
`self.queue.put_nowait(payload)` guarded by `except Full`.  `enqueue`
returns the new queue and whether the item was accepted; `put_nowait` on
a full queue raises `Full`, the caller drops the event, and the queue is
untouched. -/

structure BQueue (α : Type) where
  items : List α
  capacity : Nat
deriving DecidableEq, Repr

/-- Model of `Queue.put_nowait` plus the caller's `except Full` handler:
insert at the back when below capacity, otherwise report the drop and
leave the queue unchanged. -/
def enqueue {α : Type} (q : BQueue α) (a : α) : BQueue α × Bool :=
  if q.items.length < q.capacity then
    ({ q with items := q.items ++ [a] }, true)
  else
    (q, false)

/-- A whole sequence of enqueue attempts. -/
def enqueueAll {α : Type} (q : BQueue α) : List α → BQueue α
  | [] => q
  | a :: as => enqueueAll (enqueue q a).1 as

/-- The queue as constructed in `__init__` (`Queue(maxsize=100)`). -/
def initQueue (α : Type) : BQueue α := { items := [], capacity := 100 }

/-! ### Mode normalization (src/main.py lines 21-25)

`mode = mode.lower().strip()` followed by the alias rewrite of
`"error_only"` to `"errors_only"`. -/

/-- Model of the constructor's mode normalization. -/
def normalizeMode (mode : String) : String :=
  let m := stripStr (lowerStr mode)
  if m = "error_only" ∨ m = "errors_only" then "errors_only" else m

/-! ### Heartbeat interval (src/main.py lines 84-89) -/

/-- The `intervals` dictionary of `_start_snapshot_timer`. -/
def intervalTable : List (String × ℚ) :=
  [("activity", 5), ("minimal", 300), ("default", 60)]

/-- Model of `intervals.get(self.mode, intervals["default"])`. -/
def intervalFor (mode : String) : ℚ :=
  (intervalTable.lookup mode).getD ((intervalTable.lookup "default").getD 0)

/-! ### URL suppression check (src/main.py lines 154, 172)

Both send sites guard the network call with
`if "myapp.com" not in url`. -/

/-- Model of the guard at both send sites: transmit exactly when the
string "myapp.com" does not occur anywhere in the URL. -/
def shouldSend (url : String) : Bool :=
  !(strContains url "myapp.com")

/-- Default telemetry endpoint from `__init__`. -/
def defaultTelemetryUrl : String := "https://api.myapp.com/telemetry"

/-- Default crash endpoint from `__init__`. -/
def defaultCrashUrl : String := "https://api.myapp.com/crash"

/-- Modelled from the spec: the host component of a URL (the text after
the scheme separator, up to the first slash, colon, question mark or
hash).  The source never computes a URL host; this definition exists
only to state the specification's phrasing that transmission is keyed on
the URL's host differing from the placeholder domain, so it can be
compared with the code's substring check `shouldSend`. -/
def hostAfterSep : List Char → List Char
  | [] => []
  | ':' :: '/' :: '/' :: rest =>
      rest.takeWhile (fun c => !(c = '/' ∨ c = ':' ∨ c = '?' ∨ c = '#'))
  | _ :: rest => hostAfterSep rest

/-- Modelled from the spec: host of a URL as a string. -/
def urlHost (url : String) : String :=
  ⟨hostAfterSep url.data⟩

/-! ### Plugin state

Fields of the instance relevant to the claims, plus the two pieces of
process-wide state the code touches: `sys.excepthook` and (via the
timer) the scheduled tick. -/

/-- An exception hook installed in `sys.excepthook`: either some hook
owned by the host or interpreter (identified by an index) or the
plugin's own `_crash_handler`. -/
inductive Hook where
  | host : Nat → Hook
  | plugin : Hook
deriving DecidableEq, Repr

/-- The `self._timer` attribute.  `missing` means the attribute was
never assigned (the constructor does not create it; only `setup` does),
`noneVal` is Python `None`, and `timer b` is a `threading.Timer` object,
with `b` recording whether its tick is still pending. -/
inductive TimerSlot where
  | missing
  | noneVal
  | timer : Bool → TimerSlot
deriving DecidableEq, Repr

/-- A heartbeat payload (src/main.py lines 125-132). -/
structure Heartbeat where
  session : String
  state : StateMap
  system : StateMap
  ram_usage : JValue
  timestamp : ℚ
deriving DecidableEq, Repr

/-- The plugin instance together with the process-wide exception-hook
slot it manipulates. -/
structure Plugin where
  mode : String
  sessionId : String
  telemetryUrl : String
  crashUrl : String
  queue : BQueue Heartbeat
  stopEvent : Bool
  originalHook : Option Hook
  timerAttr : TimerSlot
  excepthook : Hook
deriving DecidableEq, Repr

/-! ### Constructor (src/main.py lines 11-56) -/

/-- Inputs visible to `__init__`: the explicit arguments, the values the
config lookups would produce (None when the key is absent), the optional
session id on the app state, and the hook installed in `sys.excepthook`
at construction time. -/
structure InitArgs where
  telemetryUrlArg : Option String
  urlKwarg : Option String
  crashUrlArg : Option String
  appConfigTelemetry : Option String
  appConfigCrash : Option String
  manifestTelemetry : Option String
  manifestCrash : Option String
  sessionIdAttr : Option String
  modeArg : String
  hostHook : Hook
deriving DecidableEq, Repr

/-- Python `a or b or ... or default` over optional strings: the first
present, non-empty (truthy) value wins. -/
def firstTruthy : List (Option String) → String → String
  | [], dflt => dflt
  | none :: rest, dflt => firstTruthy rest dflt
  | some s :: rest, dflt => if s = "" then firstTruthy rest dflt else s

/-- Model of `__init__`. -/
def mkPlugin (a : InitArgs) : Plugin :=
  { mode := normalizeMode a.modeArg
    sessionId := a.sessionIdAttr.getD "unknown-session"
    telemetryUrl :=
      firstTruthy [a.telemetryUrlArg, a.urlKwarg, a.appConfigTelemetry, a.manifestTelemetry]
        defaultTelemetryUrl
    crashUrl :=
      firstTruthy [a.crashUrlArg, a.appConfigCrash, a.manifestCrash] defaultCrashUrl
    queue := initQueue Heartbeat
    stopEvent := false
    originalHook := none
    timerAttr := TimerSlot.missing
    excepthook := a.hostHook }

/-! ### Snapshot environment and `_snapshot_state` (src/main.py 95-138) -/

/-- Outcome of the `import psutil; psutil.virtual_memory().percent`
block.  `importErr` is an ImportError from the import statement (the
only exception class the `except` clause names); `otherErr` is any other
exception raised by the metric. -/
inductive RamFetch where
  | ok : ℚ → RamFetch
  | importErr : RamFetch
  | otherErr : String → RamFetch
deriving DecidableEq, Repr

/-- The RAM block of `_snapshot_state` (lines 118-123): an ImportError
is caught and replaced by the sentinel, any other exception propagates
to the snapshot's outer handler. -/
def getRam : RamFetch → Except String JValue
  | .ok q => .ok (.n q)
  | .importErr => .ok (.s "unknown")
  | .otherErr e => .error e

/-- Results the external calls made during one snapshot would produce. -/
structure SnapshotEnv where
  appValid : Bool
  stateFetch : Except String StateMap
  sysInfo : Except String StateMap
  ram : RamFetch
  platformSystem : String
  now : ℚ
deriving Repr

/-- What one call of `_snapshot_state` did. -/
inductive SnapOutcome where
  | stopped
  | invalidApp
  | snapError : String → SnapOutcome
  | enqueued : Heartbeat → SnapOutcome
  | droppedFull : Heartbeat → SnapOutcome
deriving DecidableEq, Repr

/-- Model of `_snapshot_state`. -/
def snapshotState (st : Plugin) (env : SnapshotEnv) : Plugin × SnapOutcome :=
  if st.stopEvent then (st, .stopped)
  else if !env.appValid then (st, .invalidApp)
  else
    match env.stateFetch with
    | .error e => (st, .snapError e)
    | .ok stateSnapshot =>
      let safeState := sanitize stateSnapshot
      let systemInfo :=
        match env.sysInfo with
        | .ok si => si
        | .error _ => [("os", JValue.s env.platformSystem)]
      match getRam env.ram with
      | .error e => (st, .snapError e)
      | .ok ramVal =>
        let hb : Heartbeat :=
          { session := st.sessionId, state := safeState, system := systemInfo
            ram_usage := ramVal, timestamp := env.now }
        match enqueue st.queue hb with
        | (q2, true) => ({ st with queue := q2 }, .enqueued hb)
        | (_, false) => (st, .droppedFull hb)

/-- Model of `_start_snapshot_timer` (lines 78-93): guarded by the stop
event and the errors_only mode, it takes a snapshot and schedules the
next tick. -/
def startSnapshotTimer (st : Plugin) (env : SnapshotEnv) : Plugin :=
  if !st.stopEvent && st.mode != "errors_only" then
    let st1 := (snapshotState st env).1
    { st1 with timerAttr := TimerSlot.timer true }
  else st

/-- Model of `setup` (lines 58-76).  The env supplies the external
results for the immediate first snapshot taken by
`_start_snapshot_timer`. -/
def setup (st : Plugin) (env : SnapshotEnv) : Plugin :=
  let st1 := { st with timerAttr := TimerSlot.noneVal }
  let st2 := { st1 with originalHook := some st1.excepthook, excepthook := Hook.plugin }
  if st2.mode != "errors_only" then startSnapshotTimer st2 env else st2

/-- Restore of the exception hook at the end of `teardown`
(`if self._original_hook: sys.excepthook = self._original_hook`). -/
def restoreHook (st : Plugin) : Plugin :=
  match st.originalHook with
  | some h => { st with excepthook := h }
  | none => st

/-- Model of `teardown` (lines 182-192).  The second component is the
exception the call raises, if any: reading `self._timer` when the
attribute was never assigned raises AttributeError, and the stop event
is already set at that point because the set call comes first. -/
def teardown (st : Plugin) : Plugin × Option String :=
  let st1 := { st with stopEvent := true }
  match st1.timerAttr with
  | .missing => (st1, some "AttributeError")
  | .noneVal => (restoreHook st1, none)
  | .timer _ => (restoreHook { st1 with timerAttr := TimerSlot.timer false }, none)

/-- A pending timer tick fires: the callback is `_start_snapshot_timer`
itself, which may reschedule.  Without a pending tick nothing happens. -/
def timerFire (st : Plugin) (env : SnapshotEnv) : Plugin :=
  match st.timerAttr with
  | .timer true => startSnapshotTimer { st with timerAttr := TimerSlot.timer false } env
  | _ => st

/-! ### Upload worker (src/main.py lines 163-180) -/

/-- What one iteration of the `_upload_worker` loop did. -/
inductive WorkerOutcome where
  | notRunning
  | timedOut
  | processed : Heartbeat → Bool → WorkerOutcome
deriving DecidableEq, Repr

/-- One iteration of the worker loop: exit when the stop event is set;
otherwise dequeue with a timeout (a timeout is swallowed by the bare
except and the loop re-checks); on a payload, log it and call the
transport exactly when the telemetry URL passes the placeholder check.
The Bool in `processed` records whether `requests.post` was called. -/
def uploadWorkerStep (st : Plugin) : Plugin × WorkerOutcome :=
  if st.stopEvent then (st, .notRunning)
  else
    match st.queue.items with
    | [] => (st, .timedOut)
    | hb :: rest =>
      ({ st with queue := { st.queue with items := rest } },
       .processed hb (shouldSend st.telemetryUrl))

/-! ### Crash handler (src/main.py lines 140-161) -/

/-- External outcomes the crash handler can meet: the result of
`self.app.state.to_dict()` while the report dictionary is being built,
and whether the `requests.post` call would raise. -/
structure CrashEnv where
  stateFetch : Except String StateMap
  sendRaises : Option String
deriving Repr

/-- The crash report dictionary (lines 142-149). -/
structure CrashReport where
  session : String
  error : String
  tb : String
  osDesc : String
  last_state : StateMap
deriving DecidableEq, Repr

/-- Result of one `_crash_handler` invocation.  `raised e` means the
handler itself raised `e` before reaching its try block, so control
never arrives at the call of the previous hook; `handled` carries the
built report, whether the transport was called, and how many times the
previously installed hook was invoked. -/
inductive CrashOutcome where
  | raised : String → CrashOutcome
  | handled : CrashReport → Bool → Nat → CrashOutcome
deriving DecidableEq, Repr

/-- Model of `_crash_handler`.  The report dictionary, including the
`last_state` fetch, is built before and outside the try block; the try
block covers only the logging and the optional synchronous send, and
any exception inside it (in particular a raising transport) is caught;
afterwards the previously installed hook is called once when present. -/
def crashHandler (st : Plugin) (excMsg tbStr osStr : String) (env : CrashEnv) : CrashOutcome :=
  match env.stateFetch with
  | .error e => .raised e
  | .ok lastState =>
    let report : CrashReport :=
      { session := st.sessionId, error := excMsg, tb := tbStr
        osDesc := osStr, last_state := lastState }
    let transportCalled := shouldSend st.crashUrl
    let hookCalls : Nat :=
      match st.originalHook with
      | some _ => 1
      | none => 0
    .handled report transportCalled hookCalls

/-! ### Interleaved executions

A step is one atomic action of some thread of the system; a run is a
fold over a list of steps.  This is the trace model used for the
whole-execution claims (no heartbeat in errors_only mode, nothing after
teardown). -/

/-- One atomic action. -/
inductive Step where
  | setupStep : SnapshotEnv → Step
  | fireStep : SnapshotEnv → Step
  | workerStep : Step
  | teardownStep : Step

/-- Apply one step to the plugin state. -/
def stepRun (st : Plugin) : Step → Plugin
  | .setupStep env => setup st env
  | .fireStep env => timerFire st env
  | .workerStep => (uploadWorkerStep st).1
  | .teardownStep => (teardown st).1

/-- Run a list of steps. -/
def runSteps (st : Plugin) : List Step → Plugin
  | [] => st
  | s :: rest => runSteps (stepRun st s) rest

/-! ### Concrete values used to exercise the model -/

/-- A minimal heartbeat payload. -/
def hb0 : Heartbeat :=
  { session := "s", state := [], system := [], ram_usage := JValue.s "unknown", timestamp := 0 }

/-- A queue of capacity one that is already full. -/
def fullQ : BQueue Heartbeat := { items := [hb0], capacity := 1 }

/-- A plugin state as it looks right after setup in activity mode with the
default endpoints: stop event clear, previous hook saved, plugin hook
installed, timer slot assigned. -/
def basePlugin : Plugin :=
  { mode := "activity", sessionId := "s", telemetryUrl := defaultTelemetryUrl
    crashUrl := defaultCrashUrl, queue := initQueue Heartbeat, stopEvent := false
    originalHook := some (Hook.host 0), timerAttr := TimerSlot.noneVal
    excepthook := Hook.plugin }

/-- A host state with one sensitive and one innocuous key. -/
def demoState : StateMap := [("userPassword", JValue.s "x"), ("count", JValue.n 3)]

/-- A snapshot environment where every external call succeeds and psutil
is not installed. -/
def env0 : SnapshotEnv :=
  { appValid := true, stateFetch := Except.ok demoState
    sysInfo := Except.ok [("os", JValue.s "Linux")], ram := RamFetch.importErr
    platformSystem := "Linux", now := 0 }

/-- The base plugin switched to errors_only mode. -/
def eoPlugin : Plugin := { basePlugin with mode := "errors_only" }

/-- A short concrete schedule of steps. -/
def demoSteps : List Step :=
  [Step.setupStep env0, Step.fireStep env0, Step.workerStep, Step.teardownStep]

/-- A capacious queue holding one pending heartbeat. -/
def sendQ : BQueue Heartbeat := { items := [hb0], capacity := 100 }

/-- The heartbeat `snapshotState basePlugin env0` builds. -/
def hbDemo : Heartbeat :=
  { session := "s", state := [("count", JValue.n 3)], system := [("os", JValue.s "Linux")]
    ram_usage := JValue.s "unknown", timestamp := 0 }

/-- The plugin state after that snapshot. -/
def pluginAfterSnap : Plugin :=
  { basePlugin with queue := { items := [hbDemo], capacity := 100 } }

/-- Constructor arguments with nothing configured: every lookup misses
and all defaults apply. -/
def a0 : InitArgs :=
  { telemetryUrlArg := none, urlKwarg := none, crashUrlArg := none
    appConfigTelemetry := none, appConfigCrash := none, manifestTelemetry := none
    manifestCrash := none, sessionIdAttr := none, modeArg := "activity"
    hostHook := Hook.host 0 }

/-! ### Helper lemmas on the string primitives -/

/-- Lowercasing is idempotent on characters. -/
theorem lowerChar_idem (c : Char) : lowerChar (lowerChar c) = lowerChar c := by
  by_cases h : 65 ≤ c.toNat ∧ c.toNat ≤ 90
  · obtain ⟨h1, h2⟩ := h
    obtain ⟨n, h1, h2, rfl⟩ : ∃ n, 65 ≤ n ∧ n ≤ 90 ∧ c = Char.ofNat n :=
      ⟨c.toNat, h1, h2, (Char.ofNat_toNat c).symm⟩
    interval_cases n <;> decide
  · simp only [lowerChar, if_neg h]

/-- Lowercasing does not create or destroy whitespace. -/
theorem pyWs_lowerChar (c : Char) : pyWs (lowerChar c) = pyWs c := by
  by_cases h : 65 ≤ c.toNat ∧ c.toNat ≤ 90
  · obtain ⟨h1, h2⟩ := h
    obtain ⟨n, h1, h2, rfl⟩ : ∃ n, 65 ≤ n ∧ n ≤ 90 ∧ c = Char.ofNat n :=
      ⟨c.toNat, h1, h2, (Char.ofNat_toNat c).symm⟩
    interval_cases n <;> decide
  · simp only [lowerChar, if_neg h]

/-- Dropping a prefix by a predicate twice equals dropping it once. -/
theorem dropWhile_twice {α : Type} (p : α → Bool) (l : List α) :
    (l.dropWhile p).dropWhile p = l.dropWhile p := by
  cases h : l.dropWhile p with
  | nil => simp
  | cons a as =>
    have h0 := List.head?_dropWhile_not p l
    rw [h] at h0
    simp only [List.head?] at h0
    exact List.dropWhile_cons_of_neg (by simp [h0])

/-- A stripped list has no leading whitespace left. -/
theorem stripChars_no_lead (l : List Char) :
    (stripChars l).dropWhile pyWs = stripChars l := by
  unfold stripChars
  cases hb : ((l.dropWhile pyWs).reverse.dropWhile pyWs).reverse with
  | nil => simp
  | cons x xs =>
    have hpre : (x :: xs) <+: l.dropWhile pyWs := by
      rw [← hb]
      have h1 : (l.dropWhile pyWs).reverse.dropWhile pyWs <:+ (l.dropWhile pyWs).reverse :=
        List.dropWhile_suffix pyWs
      have h2 := List.reverse_prefix.mpr h1
      rwa [List.reverse_reverse] at h2
    obtain ⟨t, ht⟩ := hpre
    have h0 := List.head?_dropWhile_not pyWs l
    rw [← ht] at h0
    simp only [List.cons_append, List.head?] at h0
    exact List.dropWhile_cons_of_neg (by simp [h0])

/-- A stripped list has no trailing whitespace left. -/
theorem stripChars_rev (l : List Char) :
    (stripChars l).reverse.dropWhile pyWs = (stripChars l).reverse := by
  unfold stripChars
  rw [List.reverse_reverse]
  exact dropWhile_twice pyWs _

/-- Stripping is idempotent. -/
theorem stripChars_idem (l : List Char) : stripChars (stripChars l) = stripChars l := by
  show (((stripChars l).dropWhile pyWs).reverse.dropWhile pyWs).reverse = stripChars l
  rw [stripChars_no_lead, stripChars_rev, List.reverse_reverse]

/-- Stripping commutes with lowercasing. -/
theorem stripChars_map_lower (l : List Char) :
    stripChars (l.map lowerChar) = (stripChars l).map lowerChar := by
  have hp : (pyWs ∘ lowerChar) = pyWs := funext pyWs_lowerChar
  unfold stripChars
  rw [List.dropWhile_map, hp, ← List.map_reverse, List.dropWhile_map, hp, ← List.map_reverse]

/-- Lowercasing is idempotent on character lists. -/
theorem map_lower_idem (l : List Char) :
    (l.map lowerChar).map lowerChar = l.map lowerChar := by
  rw [List.map_map]
  exact List.map_congr_left (fun c _ => lowerChar_idem c)

/-- Lowercasing is idempotent on strings. -/
theorem lowerStr_idem (s : String) : lowerStr (lowerStr s) = lowerStr s :=
  congrArg String.mk (map_lower_idem s.data)

/-- Stripping commutes with lowercasing on strings. -/
theorem stripStr_lowerStr (s : String) : stripStr (lowerStr s) = lowerStr (stripStr s) :=
  congrArg String.mk (stripChars_map_lower s.data)

/-- Stripping is idempotent on strings. -/
theorem stripStr_idem (s : String) : stripStr (stripStr s) = stripStr s :=
  congrArg String.mk (stripChars_idem s.data)

/-- Mode normalization depends only on the stripped lowercase form. -/
theorem normalizeMode_congr (x y : String)
    (h : stripStr (lowerStr x) = stripStr (lowerStr y)) :
    normalizeMode x = normalizeMode y := by
  unfold normalizeMode
  rw [h]

/-! ### Helper lemmas on the queue -/

/-- One enqueue preserves the size bound and the capacity. -/
theorem enqueue_inv {α : Type} (q : BQueue α) (a : α) (h : q.items.length ≤ q.capacity) :
    (enqueue q a).1.items.length ≤ (enqueue q a).1.capacity
    ∧ (enqueue q a).1.capacity = q.capacity := by
  unfold enqueue
  split
  · refine ⟨?_, rfl⟩
    simp only [List.length_append, List.length_cons, List.length_nil]
    omega
  · exact ⟨h, rfl⟩

/-- Any sequence of enqueues preserves the size bound and the capacity. -/
theorem enqueueAll_inv {α : Type} (ps : List α) (q : BQueue α)
    (h : q.items.length ≤ q.capacity) :
    (enqueueAll q ps).items.length ≤ (enqueueAll q ps).capacity
    ∧ (enqueueAll q ps).capacity = q.capacity := by
  induction ps generalizing q with
  | nil => exact ⟨h, rfl⟩
  | cons a as ih =>
    have h1 := enqueue_inv q a h
    have h2 := ih (enqueue q a).1 h1.1
    exact ⟨h2.1, h2.2.trans h1.2⟩

/-! ### Helper lemmas on the snapshot, the timer and teardown -/

/-- Membership in the sanitized state, unfolded. -/
theorem mem_sanitize (st : StateMap) (k : String) (v : JValue) :
    (k, v) ∈ sanitize st ↔
      ((k, v) ∈ st ∧ strContains (lowerStr k) "password" = false
        ∧ strContains (lowerStr k) "token" = false) := by
  simp [sanitize, List.mem_filter, keyKept]

/-- Any heartbeat `_snapshot_state` enqueues carries the sanitized copy
of the fetched state. -/
theorem snapshotState_enqueued_state (stp : Plugin) (env : SnapshotEnv) (stt : StateMap)
    (hb : Heartbeat) (st2 : Plugin)
    (henv : env.stateFetch = Except.ok stt)
    (hrun : snapshotState stp env = (st2, SnapOutcome.enqueued hb)) :
    hb.state = sanitize stt := by
  unfold snapshotState at hrun
  split at hrun
  · simp at hrun
  · split at hrun
    · simp at hrun
    · rw [henv] at hrun
      simp only at hrun
      split at hrun
      · simp at hrun
      · split at hrun
        · rename_i q2 hq
          simp only [Prod.mk.injEq, SnapOutcome.enqueued.injEq] at hrun
          obtain ⟨-, rfl⟩ := hrun
          rfl
        · simp at hrun

/-- An unrecognized mode looks up the default interval of 60 seconds. -/
theorem intervalFor_default (m : String) (h1 : m ≠ "activity") (h2 : m ≠ "minimal") :
    intervalFor m = 60 := by
  by_cases h3 : m = "default"
  · subst h3; rfl
  · simp only [intervalFor, intervalTable, List.lookup]
    rw [beq_eq_false_iff_ne.mpr h1, beq_eq_false_iff_ne.mpr h2, beq_eq_false_iff_ne.mpr h3]
    rfl

/-- In errors_only mode no step ever puts anything into the queue. -/
theorem stepRun_errors_only (st : Plugin) (s : Step)
    (hm : st.mode = "errors_only") (hq : st.queue.items = []) :
    (stepRun st s).mode = "errors_only" ∧ (stepRun st s).queue.items = [] := by
  cases s with
  | setupStep env =>
      simp [stepRun, setup, startSnapshotTimer, hm, hq]
  | fireStep env =>
      simp only [stepRun, timerFire]
      split
      · simp [startSnapshotTimer, hm, hq]
      · exact ⟨hm, hq⟩
  | workerStep =>
      simp only [stepRun, uploadWorkerStep]
      split
      · exact ⟨hm, hq⟩
      · rw [hq]
        exact ⟨hm, hq⟩
  | teardownStep =>
      simp only [stepRun, teardown]
      split <;> simp [restoreHook, hm, hq] <;> split <;> simp [hm, hq]

/-- In errors_only mode the queue stays empty along any run. -/
theorem runSteps_errors_only (steps : List Step) (st : Plugin)
    (hm : st.mode = "errors_only") (hq : st.queue.items = []) :
    (runSteps st steps).queue.items = [] := by
  induction steps generalizing st with
  | nil => exact hq
  | cons s rest ih =>
      have h := stepRun_errors_only st s hm hq
      exact ih (stepRun st s) h.1 h.2

/-- A fire on a slot with no pending tick does nothing. -/
theorem timerFire_of_not_pending (st : Plugin) (env : SnapshotEnv)
    (h : st.timerAttr ≠ TimerSlot.timer true) : timerFire st env = st := by
  unfold timerFire
  split
  · rename_i heq
    exact absurd heq h
  · rfl

/-- Teardown always leaves the stop event set. -/
theorem teardown_stop (st : Plugin) : (teardown st).1.stopEvent = true := by
  unfold teardown
  cases h : st.timerAttr <;> simp [restoreHook] <;> split <;> rfl

/-- With the timer attribute assigned, teardown raises nothing. -/
theorem teardown_ok (st : Plugin) (ht : st.timerAttr ≠ TimerSlot.missing) :
    (teardown st).2 = none := by
  unfold teardown
  cases h : st.timerAttr with
  | missing => exact absurd h ht
  | noneVal => rfl
  | timer b => rfl

/-- Teardown restores the saved hook into the process-wide slot. -/
theorem teardown_hook (st : Plugin) (hook : Hook) (ht : st.timerAttr ≠ TimerSlot.missing)
    (hh : st.originalHook = some hook) : (teardown st).1.excepthook = hook := by
  unfold teardown
  cases h : st.timerAttr with
  | missing => exact absurd h ht
  | noneVal => simp [restoreHook, hh]
  | timer b => simp [restoreHook, hh]

/-- After teardown there is no pending tick and the timer attribute is
still assigned. -/
theorem teardown_slot (st : Plugin) (ht : st.timerAttr ≠ TimerSlot.missing) :
    (teardown st).1.timerAttr ≠ TimerSlot.timer true
    ∧ (teardown st).1.timerAttr ≠ TimerSlot.missing := by
  unfold teardown
  cases h : st.timerAttr with
  | missing => exact absurd h ht
  | noneVal => simp [restoreHook]; split <;> simp [h]
  | timer b => simp [restoreHook]; split <;> simp

/-- Teardown keeps the saved previous hook. -/
theorem teardown_originalHook (st : Plugin) :
    (teardown st).1.originalHook = st.originalHook := by
  unfold teardown
  cases h : st.timerAttr <;> simp [restoreHook] <;> split <;> rfl

/-- With the stop event set a snapshot returns immediately. -/
theorem snapshotState_stopped (st : Plugin) (env : SnapshotEnv)
    (h : st.stopEvent = true) : snapshotState st env = (st, SnapOutcome.stopped) := by
  unfold snapshotState
  rw [if_pos h]

/-- With the stop event set the timer entry point does nothing. -/
theorem startSnapshotTimer_stopped (st : Plugin) (env : SnapshotEnv)
    (h : st.stopEvent = true) : startSnapshotTimer st env = st := by
  unfold startSnapshotTimer
  rw [if_neg (by simp [h])]

/-- With no pending tick, any number of fire steps leaves the state
untouched. -/
theorem runFires_const (td : Plugin) (h : td.timerAttr ≠ TimerSlot.timer true)
    (envs : List SnapshotEnv) : runSteps td (envs.map Step.fireStep) = td := by
  induction envs with
  | nil => rfl
  | cons e rest ih =>
      show runSteps (stepRun td (Step.fireStep e)) (rest.map Step.fireStep) = td
      rw [show stepRun td (Step.fireStep e) = timerFire td e from rfl,
        timerFire_of_not_pending td e h]
      exact ih

/-! ### The claims -/

/-- C1: the claim asks that the previously installed hook run exactly
once for every exception, even when state retrieval raises while the
crash report is being built.  The code violates this: the report
dictionary, including the state fetch, is built before the try block, so
a raising state fetch aborts the handler with the hook never invoked
(first conjunct).  When the fetch succeeds the hook does run exactly
once, both with a raising transport on the placeholder URL (second
conjunct) and with a raising transport on a real URL (third conjunct). -/
theorem c1_crash_hook_bug :
    crashHandler basePlugin "boom" "tb" "os"
      { stateFetch := Except.error "StateError", sendRaises := none }
      = CrashOutcome.raised "StateError"
    ∧ crashHandler basePlugin "boom" "tb" "os"
      { stateFetch := Except.ok demoState, sendRaises := some "ConnectionError" }
      = CrashOutcome.handled
          { session := "s", error := "boom", tb := "tb", osDesc := "os", last_state := demoState }
          false 1
    ∧ crashHandler { basePlugin with crashUrl := "https://crash.example.org/r" } "boom" "tb" "os"
      { stateFetch := Except.ok demoState, sendRaises := some "ConnectionError" }
      = CrashOutcome.handled
          { session := "s", error := "boom", tb := "tb", osDesc := "os", last_state := demoState }
          true 1 := by decide

/-- C2: for every sequence of enqueue operations the queue size never
exceeds the capacity (100 by default), and an enqueue on a full queue
reports the event as dropped, discards it and evicts nothing. -/
theorem c2_queue_bounded (q : BQueue Heartbeat) (ps : List Heartbeat) (p : Heartbeat)
    (hq : q.items.length ≤ q.capacity) :
    (enqueueAll q ps).items.length ≤ q.capacity
    ∧ (initQueue Heartbeat).capacity = 100
    ∧ (q.items.length = q.capacity → enqueue q p = (q, false)) := by
  refine ⟨?_, rfl, ?_⟩
  · have h := enqueueAll_inv ps q hq
    omega
  · intro hfull
    unfold enqueue
    rw [if_neg (by omega)]

/-- Witness for C2 at a queue of capacity one that is already full. -/
theorem c2_queue_bounded_witness :
    (enqueueAll fullQ [hb0, hb0]).items.length ≤ fullQ.capacity
    ∧ enqueue fullQ hb0 = (fullQ, false) :=
  ⟨(c2_queue_bounded fullQ [hb0, hb0] hb0 (by decide)).1,
   (c2_queue_bounded fullQ [hb0, hb0] hb0 (by decide)).2.2 (by decide)⟩

/-- C3 counterexample: the claim keys transmission on the URL host
differing from the placeholder domain.  For the URL
https://notmyapp.com/x the host differs from the placeholder host (and
from the bare placeholder domain), yet the worker processes the event
without calling the transport, because the code tests for the substring
"myapp.com" anywhere in the URL. -/
theorem c3_counterexample :
    urlHost "https://notmyapp.com/x" ≠ urlHost defaultTelemetryUrl
    ∧ urlHost "https://notmyapp.com/x" ≠ "myapp.com"
    ∧ (uploadWorkerStep { basePlugin with telemetryUrl := "https://notmyapp.com/x", queue := sendQ }).2
        = WorkerOutcome.processed hb0 false := by decide

/-- C3 amended: an event is transmitted over the network exactly when
the string "myapp.com" does not occur anywhere in its target URL (a
substring test on the whole URL, not a host comparison); the built-in
placeholder URLs contain that string, so for them no transport call is
made although the event is still processed and the crash report is still
built and logged. -/
theorem c3_substring_not_host (st : Plugin) (hb : Heartbeat) (rest : List Heartbeat)
    (excMsg tbStr osStr : String) (lastState : StateMap) (env : CrashEnv)
    (hstop : st.stopEvent = false) (hq : st.queue.items = hb :: rest)
    (henv : env.stateFetch = Except.ok lastState) :
    (uploadWorkerStep st).2 = WorkerOutcome.processed hb (shouldSend st.telemetryUrl)
    ∧ (shouldSend st.telemetryUrl = true ↔ strContains st.telemetryUrl "myapp.com" = false)
    ∧ (∃ r hc, crashHandler st excMsg tbStr osStr env
        = CrashOutcome.handled r (shouldSend st.crashUrl) hc)
    ∧ shouldSend defaultTelemetryUrl = false
    ∧ shouldSend defaultCrashUrl = false := by
  refine ⟨?_, ?_, ?_, by decide, by decide⟩
  · simp [uploadWorkerStep, hstop, hq]
  · simp [shouldSend]
  · unfold crashHandler
    rw [henv]
    exact ⟨_, _, rfl⟩

/-- Witness for the amended C3 on the default endpoints. -/
theorem c3_substring_not_host_witness :
    (uploadWorkerStep { basePlugin with queue := sendQ }).2
      = WorkerOutcome.processed hb0 (shouldSend ({ basePlugin with queue := sendQ }).telemetryUrl)
    ∧ shouldSend defaultTelemetryUrl = false :=
  ⟨(c3_substring_not_host { basePlugin with queue := sendQ } hb0 [] "e" "tb" "os" demoState
      { stateFetch := Except.ok demoState, sendRaises := none } rfl rfl rfl).1,
   (c3_substring_not_host { basePlugin with queue := sendQ } hb0 [] "e" "tb" "os" demoState
      { stateFetch := Except.ok demoState, sendRaises := none } rfl rfl rfl).2.2.2.1⟩

/-- C4: a key survives sanitization exactly when the key is present in
the input and its lowercase form contains neither "password" nor
"token", with its value unchanged, and every heartbeat the snapshot
enqueues carries exactly the sanitized state. -/
theorem c4_heartbeat_sanitized (st : StateMap) (k : String) (v : JValue) (stp : Plugin)
    (env : SnapshotEnv) (stt : StateMap) (hb : Heartbeat) (st2 : Plugin)
    (henv : env.stateFetch = Except.ok stt)
    (hrun : snapshotState stp env = (st2, SnapOutcome.enqueued hb)) :
    ((k, v) ∈ sanitize st ↔
      ((k, v) ∈ st ∧ strContains (lowerStr k) "password" = false
        ∧ strContains (lowerStr k) "token" = false))
    ∧ hb.state = sanitize stt :=
  ⟨mem_sanitize st k v, snapshotState_enqueued_state stp env stt hb st2 henv hrun⟩

/-- Witness for C4 on a concrete snapshot run. -/
theorem c4_heartbeat_sanitized_witness :
    (("count", JValue.n 3) ∈ sanitize demoState ↔
      (("count", JValue.n 3) ∈ demoState
        ∧ strContains (lowerStr "count") "password" = false
        ∧ strContains (lowerStr "count") "token" = false))
    ∧ hbDemo.state = sanitize demoState :=
  c4_heartbeat_sanitized demoState "count" (JValue.n 3) basePlugin env0 demoState hbDemo
    pluginAfterSnap rfl (by decide)

/-- C5: the mode-to-interval mapping is exact (activity 5, minimal 300,
any other mode 60) and in errors_only mode the queue never receives a
heartbeat along any run of the system. -/
theorem c5_mode_intervals (m : String) (st : Plugin) (steps : List Step)
    (hm : st.mode = "errors_only") (hq : st.queue.items = []) :
    intervalFor "activity" = 5
    ∧ intervalFor "minimal" = 300
    ∧ (m ≠ "activity" → m ≠ "minimal" → intervalFor m = 60)
    ∧ (runSteps st steps).queue.items = [] :=
  ⟨rfl, rfl, fun h1 h2 => intervalFor_default m h1 h2, runSteps_errors_only steps st hm hq⟩

/-- Witness for C5 on an errors_only plugin run through a concrete
schedule. -/
theorem c5_mode_intervals_witness :
    intervalFor "activity" = 5
    ∧ intervalFor "custom mode" = 60
    ∧ (runSteps eoPlugin demoSteps).queue.items = [] :=
  ⟨(c5_mode_intervals "custom mode" eoPlugin demoSteps rfl rfl).1,
   (c5_mode_intervals "custom mode" eoPlugin demoSteps rfl rfl).2.2.1 (by decide) (by decide),
   (c5_mode_intervals "custom mode" eoPlugin demoSteps rfl rfl).2.2.2⟩

/-- C6: after teardown the call has raised nothing, the stop event is
set, the previously saved hook is back in the process-wide slot, a
second teardown also raises nothing and leaves the restored hook in
place, and no further heartbeat can be enqueued: a direct snapshot
returns immediately, the timer entry point does nothing, and any
sequence of timer fires leaves the state untouched.  The hypothesis that
the timer attribute is assigned holds as soon as setup ran its first
line, so this also covers a partially failed setup. -/
theorem c6_teardown_safe (st : Plugin) (hook : Hook) (envs : List SnapshotEnv)
    (env : SnapshotEnv)
    (ht : st.timerAttr ≠ TimerSlot.missing) (hh : st.originalHook = some hook) :
    (teardown st).2 = none
    ∧ (teardown st).1.stopEvent = true
    ∧ (teardown st).1.excepthook = hook
    ∧ (teardown (teardown st).1).2 = none
    ∧ (teardown (teardown st).1).1.excepthook = hook
    ∧ snapshotState (teardown st).1 env = ((teardown st).1, SnapOutcome.stopped)
    ∧ startSnapshotTimer (teardown st).1 env = (teardown st).1
    ∧ runSteps (teardown st).1 (envs.map Step.fireStep) = (teardown st).1 := by
  have hslot := teardown_slot st ht
  refine ⟨teardown_ok st ht, teardown_stop st, teardown_hook st hook ht hh,
    teardown_ok _ hslot.2, teardown_hook _ hook hslot.2 ?_, ?_, ?_, ?_⟩
  · rw [teardown_originalHook]
    exact hh
  · exact snapshotState_stopped _ env (teardown_stop st)
  · exact startSnapshotTimer_stopped _ env (teardown_stop st)
  · exact runFires_const _ hslot.1 envs

/-- Witness for C6 on the base plugin. -/
theorem c6_teardown_safe_witness :
    (teardown basePlugin).2 = none
    ∧ (teardown basePlugin).1.excepthook = Hook.host 0
    ∧ (teardown (teardown basePlugin).1).2 = none
    ∧ runSteps (teardown basePlugin).1 ([env0].map Step.fireStep) = (teardown basePlugin).1 :=
  ⟨(c6_teardown_safe basePlugin (Hook.host 0) [env0] env0 (by decide) rfl).1,
   (c6_teardown_safe basePlugin (Hook.host 0) [env0] env0 (by decide) rfl).2.2.1,
   (c6_teardown_safe basePlugin (Hook.host 0) [env0] env0 (by decide) rfl).2.2.2.1,
   (c6_teardown_safe basePlugin (Hook.host 0) [env0] env0 (by decide) rfl).2.2.2.2.2.2.2⟩

/-- C7: mode normalization is insensitive to case and to surrounding
whitespace (it depends only on the stripped lowercase form), and an
unrecognized normalized mode gets the default 60-second interval policy
and is not errors_only, with no error raised (normalization is a total
function). -/
theorem c7_mode_normalization (s : String) :
    normalizeMode (lowerStr s) = normalizeMode s
    ∧ normalizeMode (stripStr s) = normalizeMode s
    ∧ (normalizeMode s ∉ (["activity", "minimal", "errors_only"] : List String) →
        intervalFor (normalizeMode s) = 60 ∧ normalizeMode s ≠ "errors_only") := by
  refine ⟨?_, ?_, ?_⟩
  · exact normalizeMode_congr _ _ (by rw [lowerStr_idem])
  · refine normalizeMode_congr _ _ ?_
    rw [stripStr_lowerStr (stripStr s), stripStr_idem, ← stripStr_lowerStr s]
  · intro h
    simp only [List.mem_cons, List.mem_singleton, not_or] at h
    exact ⟨intervalFor_default _ h.1 h.2.1, h.2.2.1⟩

/-- Witness for C7 on an unrecognized mode string. -/
theorem c7_mode_normalization_witness :
    normalizeMode (lowerStr " Custom-Mode ") = normalizeMode " Custom-Mode "
    ∧ normalizeMode (stripStr " Custom-Mode ") = normalizeMode " Custom-Mode "
    ∧ (intervalFor (normalizeMode " Custom-Mode ") = 60
        ∧ normalizeMode " Custom-Mode " ≠ "errors_only") :=
  ⟨(c7_mode_normalization " Custom-Mode ").1,
   (c7_mode_normalization " Custom-Mode ").2.1,
   (c7_mode_normalization " Custom-Mode ").2.2 (by decide)⟩

/-- C8 counterexample: the claim asks for the "unknown" sentinel for any
failure of the RAM metric.  With a RAM metric that raises something
other than ImportError the snapshot aborts through its outer handler and
nothing is enqueued: no heartbeat with an "unknown" RAM field is built. -/
theorem c8_counterexample :
    (snapshotState basePlugin { env0 with ram := RamFetch.otherErr "psutil error" }).2
      = SnapOutcome.snapError "psutil error"
    ∧ (snapshotState basePlugin { env0 with ram := RamFetch.otherErr "psutil error" }).1.queue.items
      = [] := by decide

/-- C8 amended: only an ImportError from the psutil import is replaced
by the "unknown" sentinel, in which case the heartbeat is still built
and enqueued; any other failure of the RAM metric propagates to the
snapshot's outer handler, which logs it and skips the heartbeat. -/
theorem c8_ram_fallback (st : Plugin) (env : SnapshotEnv) (stt : StateMap) (e : String)
    (hstop : st.stopEvent = false) (happ : env.appValid = true)
    (hst : env.stateFetch = Except.ok stt) :
    (env.ram = RamFetch.importErr → st.queue.items.length < st.queue.capacity →
      ∃ hb, snapshotState st env
          = ({ st with queue := { st.queue with items := st.queue.items ++ [hb] } },
             SnapOutcome.enqueued hb)
        ∧ hb.ram_usage = JValue.s "unknown")
    ∧ (env.ram = RamFetch.otherErr e → snapshotState st env = (st, SnapOutcome.snapError e)) := by
  constructor
  · intro hram hcap
    cases hsys : env.sysInfo with
    | error e2 =>
        refine ⟨{ session := st.sessionId, state := sanitize stt
                  system := [("os", JValue.s env.platformSystem)]
                  ram_usage := JValue.s "unknown", timestamp := env.now }, ?_, rfl⟩
        simp [snapshotState, hstop, happ, hst, hram, hsys, getRam, enqueue, hcap]
    | ok si =>
        refine ⟨{ session := st.sessionId, state := sanitize stt, system := si
                  ram_usage := JValue.s "unknown", timestamp := env.now }, ?_, rfl⟩
        simp [snapshotState, hstop, happ, hst, hram, hsys, getRam, enqueue, hcap]
  · intro hram
    simp [snapshotState, hstop, happ, hst, hram, getRam]

/-- Witness for the amended C8: psutil missing, heartbeat enqueued with
the sentinel. -/
theorem c8_ram_fallback_witness :
    ∃ hb, snapshotState basePlugin env0
        = ({ basePlugin with
              queue := { basePlugin.queue with items := basePlugin.queue.items ++ [hb] } },
           SnapOutcome.enqueued hb)
      ∧ hb.ram_usage = JValue.s "unknown" :=
  (c8_ram_fallback basePlugin env0 demoState "e" rfl rfl rfl).1 rfl (by decide)

/-- C9: the crash report carries the full, unsanitized state: its
last_state field equals the fetched state exactly, so keys whose
lowercase form contains "password" or "token" stay in the crash payload
even though the heartbeat path filters them out. -/
theorem c9_crash_unsanitized (st : Plugin) (excMsg tbStr osStr : String)
    (env : CrashEnv) (lastState : StateMap)
    (henv : env.stateFetch = Except.ok lastState) :
    ∃ r tc hc, crashHandler st excMsg tbStr osStr env = CrashOutcome.handled r tc hc
      ∧ r.last_state = lastState
      ∧ ∀ k v, (strContains (lowerStr k) "password" || strContains (lowerStr k) "token") = true →
          (((k, v) ∈ lastState → (k, v) ∈ r.last_state) ∧ (k, v) ∉ sanitize lastState) := by
  unfold crashHandler
  rw [henv]
  refine ⟨_, _, _, rfl, rfl, ?_⟩
  intro k v hk
  refine ⟨fun h => h, ?_⟩
  intro hmem
  rw [mem_sanitize] at hmem
  rcases Bool.or_eq_true_iff.mp hk with h | h
  · rw [hmem.2.1] at h; exact Bool.false_ne_true h
  · rw [hmem.2.2] at h; exact Bool.false_ne_true h

/-- Witness for C9 on a state with a password key. -/
theorem c9_crash_unsanitized_witness :
    ∃ r tc hc, crashHandler basePlugin "boom" "tb" "os"
        { stateFetch := Except.ok demoState, sendRaises := none }
        = CrashOutcome.handled r tc hc
      ∧ r.last_state = demoState
      ∧ ∀ k v, (strContains (lowerStr k) "password" || strContains (lowerStr k) "token") = true →
          (((k, v) ∈ demoState → (k, v) ∈ r.last_state) ∧ (k, v) ∉ sanitize demoState) :=
  c9_crash_unsanitized basePlugin "boom" "tb" "os"
    { stateFetch := Except.ok demoState, sendRaises := none } demoState rfl

/-- C10: on a freshly constructed plugin the timer attribute is missing,
so teardown raises AttributeError; setup is what assigns the
attribute. -/
theorem c10_teardown_needs_setup (a : InitArgs) (env : SnapshotEnv) :
    (teardown (mkPlugin a)).2 = some "AttributeError"
    ∧ (mkPlugin a).timerAttr = TimerSlot.missing
    ∧ (setup (mkPlugin a) env).timerAttr ≠ TimerSlot.missing := by
  refine ⟨rfl, rfl, ?_⟩
  simp only [setup, startSnapshotTimer]
  split
  · split
    · intro h; simp at h
    · intro h; simp at h
  · intro h; simp at h

/-- Witness for C10 on the all-defaults constructor arguments. -/
theorem c10_teardown_needs_setup_witness :
    (teardown (mkPlugin a0)).2 = some "AttributeError"
    ∧ (mkPlugin a0).timerAttr = TimerSlot.missing
    ∧ (setup (mkPlugin a0) env0).timerAttr ≠ TimerSlot.missing :=
  c10_teardown_needs_setup a0 env0

end Telemetry
